import Mathlib

/-!
# Verification of the chatlas Anthropic provider adapter

A shallow embedding of `src/chatlas/_anthropic.py` (the `AnthropicProvider`
adapter): the canonical `Content`/`Turn` model, the vendor wire shapes
(content blocks, messages, stream events), request assembly
(`_chat_perform_args`, `_as_message_params`, `_as_content_block`,
`_anthropic_tool_schema`), the streaming merge state machine
(`stream_merge_chunks`) and response canonicalization (`_as_turn`).

Python values that can be either a raw string or parsed JSON (the `input`
of a tool-use block) are embedded as `JsonVal`, whose `.str` constructor
plays the role of Python's `str` and whose `.obj` constructor plays the
role of Python's `dict`.  Fallible Python code (code that `raise`s) is
embedded in `Except String`.
-/

namespace Chatlas

/-- A JSON value, the embedding of the Python values that flow through the
adapter (`dict`/`list`/`str`/`int`/`bool`/`None`).  Objects are ordered
association lists, matching Python's insertion-ordered `dict`. -/
inductive JsonVal where
  | null : JsonVal
  | bool (b : Bool) : JsonVal
  | num (n : Int) : JsonVal
  | str (s : String) : JsonVal
  | arr (elems : List JsonVal) : JsonVal
  | obj (fields : List (String × JsonVal)) : JsonVal
deriving Repr

mutual

def JsonVal.beq : JsonVal → JsonVal → Bool
  | .null, .null => true
  | .bool a, .bool b => a == b
  | .num a, .num b => a == b
  | .str a, .str b => a == b
  | .arr a, .arr b => JsonVal.beqList a b
  | .obj a, .obj b => JsonVal.beqFields a b
  | _, _ => false

def JsonVal.beqList : List JsonVal → List JsonVal → Bool
  | [], [] => true
  | a :: as, b :: bs => JsonVal.beq a b && JsonVal.beqList as bs
  | _, _ => false

def JsonVal.beqFields : List (String × JsonVal) → List (String × JsonVal) → Bool
  | [], [] => true
  | (ka, va) :: as, (kb, vb) :: bs =>
      ka == kb && JsonVal.beq va vb && JsonVal.beqFields as bs
  | _, _ => false

end

/-- Membership test for a key in a JSON object's field list: the embedding
of Python's `key in dict` / `dict[key]` on JSON-decoded dictionaries. -/
def jsonLookup (fields : List (String × JsonVal)) (key : String) : Option JsonVal :=
  match fields with
  | [] => none
  | (k, v) :: rest => if k = key then some v else jsonLookup rest key

/-! ## A model of `json.loads`

The Python source calls the standard library's `json.loads` to parse the
accumulated tool-argument string.  Modelled from the spec: a standard,
executable recursive-descent JSON parser (whitespace-tolerant; the model
restricts numeric literals to integers, which is the only numeric shape the
adapter's claims exercise).  Fuel makes the recursion structural. -/

/-- Skip JSON whitespace. -/
def skipWs : List Char → List Char
  | c :: rest =>
      if c = ' ' ∨ c = '\t' ∨ c = '\n' ∨ c = '\r' then skipWs rest else c :: rest
  | [] => []

/-- Decode one hex digit. -/
def hexDigit (c : Char) : Option Nat :=
  if '0' ≤ c ∧ c ≤ '9' then some (c.toNat - '0'.toNat)
  else if 'a' ≤ c ∧ c ≤ 'f' then some (c.toNat - 'a'.toNat + 10)
  else if 'A' ≤ c ∧ c ≤ 'F' then some (c.toNat - 'A'.toNat + 10)
  else none

/-- Parse the body of a JSON string literal (the opening quote already
consumed), returning the decoded string and the rest of the input. -/
def parseStringBody : Nat → List Char → Option (String × List Char)
  | 0, _ => none
  | _, [] => none
  | fuel + 1, c :: rest =>
      if c = '"' then some ("", rest)
      else if c = '\\' then
        match rest with
        | [] => none
        | e :: rest2 =>
            let dec : Option (Char × List Char) :=
              if e = '"' then some ('"', rest2)
              else if e = '\\' then some ('\\', rest2)
              else if e = '/' then some ('/', rest2)
              else if e = 'n' then some ('\n', rest2)
              else if e = 't' then some ('\t', rest2)
              else if e = 'r' then some ('\r', rest2)
              else if e = 'b' then some (Char.ofNat 8, rest2)
              else if e = 'f' then some (Char.ofNat 12, rest2)
              else if e = 'u' then
                match rest2 with
                | h1 :: h2 :: h3 :: h4 :: rest3 =>
                    match hexDigit h1, hexDigit h2, hexDigit h3, hexDigit h4 with
                    | some d1, some d2, some d3, some d4 =>
                        some (Char.ofNat (((d1 * 16 + d2) * 16 + d3) * 16 + d4), rest3)
                    | _, _, _, _ => none
                | _ => none
              else none
            match dec with
            | none => none
            | some (ch, rest3) =>
                match parseStringBody fuel rest3 with
                | some (s, r) => some (⟨ch :: s.data⟩, r)
                | none => none
      else
        match parseStringBody fuel rest with
        | some (s, r) => some (⟨c :: s.data⟩, r)
        | none => none

/-- Fold a digit list into a natural number. -/
def digitsToNat (ds : List Char) : Nat :=
  ds.foldl (fun n c => 10 * n + (c.toNat - '0'.toNat)) 0

/-- True when the input continues with a fractional or exponent part
(unsupported by this integer-only model). -/
def startsFloat : List Char → Bool
  | c :: _ => c = '.' ∨ c = 'e' ∨ c = 'E'
  | [] => false

/-- Parse a JSON integer numeral. -/
def parseNum (input : List Char) : Option (JsonVal × List Char) :=
  match input with
  | '-' :: r =>
      let (ds, rest) := r.span (fun c => c.isDigit)
      if ds.isEmpty ∨ startsFloat rest then none
      else some (.num (-(digitsToNat ds : Int)), rest)
  | l =>
      let (ds, rest) := l.span (fun c => c.isDigit)
      if ds.isEmpty ∨ startsFloat rest then none
      else some (.num (digitsToNat ds), rest)

mutual

/-- Parse one JSON value. -/
def parseVal : Nat → List Char → Option (JsonVal × List Char)
  | 0, _ => none
  | fuel + 1, input =>
      match skipWs input with
      | 'n' :: 'u' :: 'l' :: 'l' :: r => some (.null, r)
      | 't' :: 'r' :: 'u' :: 'e' :: r => some (.bool true, r)
      | 'f' :: 'a' :: 'l' :: 's' :: 'e' :: r => some (.bool false, r)
      | '"' :: r =>
          match parseStringBody (r.length + 1) r with
          | some (s, r2) => some (.str s, r2)
          | none => none
      | '[' :: r =>
          match skipWs r with
          | ']' :: r2 => some (.arr [], r2)
          | r2 =>
              match parseElems fuel r2 with
              | some (xs, r3) => some (.arr xs, r3)
              | none => none
      | '\x7b' :: r =>
          match skipWs r with
          | '\x7d' :: r2 => some (.obj [], r2)
          | r2 =>
              match parseFields fuel r2 with
              | some (fs, r3) => some (.obj fs, r3)
              | none => none
      | l => parseNum l

/-- Parse the comma-separated elements of a JSON array, up to and
including the closing bracket. -/
def parseElems : Nat → List Char → Option (List JsonVal × List Char)
  | 0, _ => none
  | fuel + 1, input =>
      match parseVal fuel input with
      | none => none
      | some (v, r) =>
          match skipWs r with
          | ',' :: r2 =>
              match parseElems fuel r2 with
              | some (xs, r3) => some (v :: xs, r3)
              | none => none
          | ']' :: r2 => some ([v], r2)
          | _ => none

/-- Parse the comma-separated fields of a JSON object, up to and
including the closing brace. -/
def parseFields : Nat → List Char → Option (List (String × JsonVal) × List Char)
  | 0, _ => none
  | fuel + 1, input =>
      match skipWs input with
      | '"' :: r =>
          match parseStringBody (r.length + 1) r with
          | none => none
          | some (k, r2) =>
              match skipWs r2 with
              | ':' :: r3 =>
                  match parseVal fuel r3 with
                  | none => none
                  | some (v, r4) =>
                      match skipWs r4 with
                      | ',' :: r5 =>
                          match parseFields fuel r5 with
                          | some (fs, r6) => some ((k, v) :: fs, r6)
                          | none => none
                      | '\x7d' :: r5 => some ([(k, v)], r5)
                      | _ => none
              | _ => none
      | _ => none

end

/-- Modelled from the spec: Python's `json.loads` (standard library,
outside this repository).  Parses the whole string as one JSON document;
`none` is the model of `json.JSONDecodeError`. -/
def jsonLoads (s : String) : Option JsonVal :=
  match parseVal (2 * s.length + 2) s.data with
  | some (v, rest) => if (skipWs rest).isEmpty then some v else none
  | none => none

/-! ## Canonical content and turn model

Modelled from the spec (section 3, DATA MODEL): the canonical tagged union
of conversation content kinds and the immutable Turn record live in
external modules of this repository that are not under src/
(chatlas/_content.py and chatlas/_turn.py); only their shapes, as the spec
describes them, are needed here. -/

/-- Modelled from the spec: the canonical Content tagged union of
chatlas/_content.py — Text owns a string; ImageInline owns content-type and
base64 payload; ImageRemote owns a URL; Json owns a structured value;
ToolRequest owns a call id, tool name and arguments; ToolResult owns the
call id it answers, a terminal value and an optional error. -/
inductive Content where
  | text (text : String) : Content
  | imageInline (content_type : String) (data : Option String) : Content
  | imageRemote (url : String) : Content
  | json (value : JsonVal) : Content
  | toolRequest (id : String) (name : String) (arguments : JsonVal) : Content
  | toolResult (id : String) (value : JsonVal) (error : Option String) : Content

/-- Modelled from the spec: the canonical Turn record of chatlas/_turn.py —
role, ordered content list, optional (input, output) token pair.  The
optional raw provider payload is opaque and for diagnostics only, so it is
not modelled. -/
structure Turn where
  role : String
  contents : List Content
  tokens : Option (Nat × Nat) := none

/-- Modelled from the spec: the text of a Turn (chatlas/_turn.py), the
concatenation of its plain-text content items, which request construction
forwards as the vendor's dedicated system-prompt field. -/
def Turn.text (t : Turn) : String :=
  t.contents.foldl (fun acc c => match c with | .text s => acc ++ s | _ => acc) ""

/-- Modelled from the spec: the terminal value of a ToolResult
(chatlas/_content.py, method get_final_value) — the error payload when the
error is set, the success payload otherwise. -/
def get_final_value (value : JsonVal) (error : Option String) : JsonVal :=
  match error with
  | some e => .str e
  | none => value

/-! ## Vendor wire shapes

The Anthropic content blocks, message params and request arguments that
src/chatlas/_anthropic.py builds and consumes (the anthropic SDK types are
external; their fields used by the adapter are embedded directly).  A
tool-use block's input is a JsonVal: during streaming it is a raw string
(constructor .str) and after parsing a structured value, mirroring the
dynamically typed input attribute in the source. -/

/-- A vendor content block: text, image, tool_use or tool_result. -/
inductive ContentBlock where
  | text (text : String) : ContentBlock
  | image (media_type : String) (data : String) : ContentBlock
  | toolUse (id : String) (name : String) (input : JsonVal) : ContentBlock
  | toolResult (tool_use_id : String) (content : JsonVal) (is_error : Bool) : ContentBlock

/-- A vendor message param: role plus content blocks. -/
structure MessageParam where
  role : String
  content : List ContentBlock

/-- A vendor completion (anthropic Message): content blocks, stop data and
usage (input_tokens, output_tokens flattened out of the usage object). -/
structure Message where
  content : List ContentBlock
  stop_reason : Option String := none
  stop_sequence : Option String := none
  input_tokens : Nat := 0
  output_tokens : Nat := 0

/-- The function half of an OpenAI-style tool schema
(schema["function"]), as read by _anthropic_tool_schema: name, optional
description, optional parameters object. -/
structure ToolSchemaFunction where
  name : String
  description : Option String := none
  parameters : Option JsonVal := none

/-- A vendor tool schema (anthropic ToolParam): name, optional description
and the input_schema object, whose type field is always "object" and whose
properties are optional. -/
structure ToolParam where
  name : String
  description : Option String
  input_schema_type : String
  input_schema_properties : Option JsonVal

/-- A forced tool choice: the dict with a type and a name that
_chat_perform_args installs under the tool_choice key. -/
structure ToolChoice where
  type : String
  name : String

/-- Caller-supplied raw overrides (the kwargs dict merged into the request):
an optional entry per request key the claims concern.  A field of none is
the embedding of the key being absent from the dict. -/
structure SubmitKwargs where
  stream : Option Bool := none
  messages : Option (List MessageParam) := none
  model : Option String := none
  max_tokens : Option Nat := none
  tools : Option (List ToolParam) := none
  tool_choice : Option ToolChoice := none
  system : Option String := none

/-- The assembled vendor request (SubmitInputArgs): the keys
_chat_perform_args writes, with tool_choice and system optional as in the
source (they are only sometimes present in the dict). -/
structure SubmitInputArgs where
  stream : Bool
  messages : List MessageParam
  model : String
  max_tokens : Nat
  tools : List ToolParam
  tool_choice : Option ToolChoice := none
  system : Option String := none

/-! ## The adapter functions (src/chatlas/_anthropic.py) -/

/-- AnthropicProvider._as_content_block (lines 393-427): map one canonical
content item to a vendor content block; remote images raise. -/
def as_content_block (content : Content) : Except String ContentBlock :=
  match content with
  | .text t => .ok (.text t)
  | .json _ => .ok (.text "<structured data/>")
  | .imageInline ct data => .ok (.image ct (data.getD ""))
  | .imageRemote _ =>
      .error "Remote images aren't supported by Anthropic (Claude)."
  | .toolRequest id name args => .ok (.toolUse id name args)
  | .toolResult id v err => .ok (.toolResult id (get_final_value v err) err.isSome)

/-- The content list comprehension of _as_message_params (line 388): map
every content item of one turn to a vendor block, stopping at the first
raised error, in order. -/
def map_content_blocks : List Content → Except String (List ContentBlock)
  | [] => .ok []
  | c :: rest =>
      match as_content_block c with
      | .error e => .error e
      | .ok b =>
          match map_content_blocks rest with
          | .error e => .error e
          | .ok bs => .ok (b :: bs)

/-- AnthropicProvider._as_message_params (lines 380-391): map turns to
vendor messages, skipping every system-role turn and raising on any role
other than system, user or assistant. -/
def as_message_params : List Turn → Except String (List MessageParam)
  | [] => .ok []
  | turn :: rest =>
      if turn.role = "system" then
        as_message_params rest
      else if turn.role ≠ "user" ∧ turn.role ≠ "assistant" then
        .error ("Unknown role " ++ turn.role)
      else
        match map_content_blocks turn.contents with
        | .error e => .error e
        | .ok content =>
            match as_message_params rest with
            | .error e => .error e
            | .ok tail =>
                .ok ({ role := if turn.role = "user" then "user" else "assistant",
                       content := content } :: tail)

/-- AnthropicProvider._anthropic_tool_schema (lines 429-447): translate an
OpenAI-style function schema into the vendor tool shape; the input_schema
type is always forced to "object", and properties are copied from the
schema's parameters.properties when parameters are present (indexing a
missing properties key raises, as Python indexing would). -/
def anthropic_tool_schema (fn : ToolSchemaFunction) : Except String ToolParam :=
  match fn.parameters with
  | none =>
      .ok { name := fn.name, description := fn.description,
            input_schema_type := "object", input_schema_properties := none }
  | some p =>
      match p with
      | .obj fields =>
          match jsonLookup fields "properties" with
          | some props =>
              .ok { name := fn.name, description := fn.description,
                    input_schema_type := "object",
                    input_schema_properties := some props }
          | none => .error "KeyError: properties"
      | _ => .error "TypeError: parameters is not a mapping"

/-- Modelled from the spec: the synthesized extraction pseudo-tool
(_structured_tool_call) that _chat_perform_args builds when an output
schema is requested.  The Tool wrapper lives in chatlas/_tools.py (not
under src/): it takes the wrapped function's name (_structured_tool_call,
the literal name also matched in _as_turn in the source) and docstring
(Extract structured data); _chat_perform_args then overwrites its
parameters with an object schema whose sole property, data, carries the
schema derived from the requested data model. -/
def structured_tool_call_fn (schema : JsonVal) : ToolSchemaFunction :=
  { name := "_structured_tool_call",
    description := some "Extract structured data",
    parameters := some (.obj [("type", .str "object"),
                              ("properties", .obj [("data", schema)])]) }

/-- The tool-schema list comprehension of _chat_perform_args (lines
288-290): translate every registered tool's schema, in order, stopping at
the first raised error. -/
def map_tool_schemas : List ToolSchemaFunction → Except String (List ToolParam)
  | [] => .ok []
  | fn :: rest =>
      match anthropic_tool_schema fn with
      | .error e => .error e
      | .ok ts =>
          match map_tool_schemas rest with
          | .error e => .error e
          | .ok tss => .ok (ts :: tss)

/-- The structured-extraction shim of _chat_perform_args (lines 292-315):
when a data model is requested, append the pseudo-tool's vendor schema,
force stream to false (warning once when it was requested), and remember
the forced tool choice.  Returns (tool list, stream flag, warnings, forced
choice). -/
def extraction_shim (stream : Bool) (tool_schemas : List ToolParam)
    (data_model : Option JsonVal) :
    Except String (List ToolParam × Bool × List String × Option ToolChoice) :=
  match data_model with
  | none => .ok (tool_schemas, stream, [], none)
  | some schema =>
      let fn := structured_tool_call_fn schema
      match anthropic_tool_schema fn with
      | .error e => .error e
      | .ok ts =>
          .ok (tool_schemas ++ [ts], false,
               if stream then
                 ["Anthropic does not support structured data extraction in streaming mode."]
               else [],
               some { type := "tool", name := fn.name })

/-- AnthropicProvider._chat_perform_args (lines 280-336): assemble the
vendor request from the stream flag, turns, tools, optional data model
(embedded as the already-derived parameter schema of the requested output
type) and caller kwargs.  Returns the request together with the list of
warnings emitted.  Caller kwargs win over every derived key; a forced
tool_choice is installed after the merge whenever a data model was
requested; the system key is filled from a leading system turn only when
the caller supplied none. -/
def chat_perform_args (model : String) (max_tokens : Nat) (stream : Bool)
    (turns : List Turn) (tools : List ToolSchemaFunction)
    (data_model : Option JsonVal := none) (kwargs : SubmitKwargs := {}) :
    Except String (SubmitInputArgs × List String) :=
  match map_tool_schemas tools with
  | .error e => .error e
  | .ok base_schemas =>
      match extraction_shim stream base_schemas data_model with
      | .error e => .error e
      | .ok (tool_schemas, stream', warns, data_model_tool) =>
          match as_message_params turns with
          | .error e => .error e
          | .ok messages =>
              .ok ({ stream := kwargs.stream.getD stream',
                     messages := kwargs.messages.getD messages,
                     model := kwargs.model.getD model,
                     max_tokens := kwargs.max_tokens.getD max_tokens,
                     tools := kwargs.tools.getD tool_schemas,
                     tool_choice :=
                       match data_model_tool with
                       | some choice => some choice
                       | none => kwargs.tool_choice,
                     system :=
                       match kwargs.system with
                       | some s => some s
                       | none =>
                           match turns with
                           | t0 :: _ =>
                               if t0.role = "system" then some t0.text else none
                           | [] => none }, warns)

/-! ## Streaming merge state machine -/

/-- A vendor stream event (anthropic RawMessageStreamEvent), restricted to
the event shapes stream_merge_chunks inspects.  The two content_block_delta
sub-cases are split into their own constructors. -/
inductive StreamChunk where
  | message_start (message : Message) : StreamChunk
  | content_block_start (index : Nat) (content_block : ContentBlock) : StreamChunk
  | text_delta (index : Nat) (text : String) : StreamChunk
  | input_json_delta (index : Nat) (partialJson : String) : StreamChunk
  | content_block_stop (index : Nat) : StreamChunk
  | message_delta (stop_reason : Option String) (stop_sequence : Option String)
      (output_tokens : Nat) : StreamChunk

/-- AnthropicProvider.stream_merge_chunks (lines 343-372): fold one stream
event into the accumulator.  A message_start event replaces the accumulator
with the event's message skeleton; every other event requires an existing
accumulator (Python would raise an AttributeError on None) and an in-bounds
index where it indexes the content list (Python would raise an IndexError).
On content_block_stop, a tool-use block whose input is still a raw string
has it parsed as JSON, the empty string standing for the empty object; a
parse failure raises. -/
def stream_merge_chunks (completion : Option Message) (chunk : StreamChunk) :
    Except String Message :=
  match chunk with
  | .message_start m => .ok m
  | _ =>
    match completion with
    | none => .error "AttributeError: completion is None"
    | some c =>
      match chunk with
      | .message_start m => .ok m
      | .content_block_start _ cb => .ok { c with content := c.content ++ [cb] }
      | .text_delta i t =>
          match c.content[i]? with
          | some (.text s) =>
              .ok { c with content := c.content.set i (.text (s ++ t)) }
          | some _ => .error "AttributeError: text"
          | none => .error "IndexError: list index out of range"
      | .input_json_delta i pj =>
          match c.content[i]? with
          | some (.toolUse id name input) =>
              let s := match input with | .str s => s | _ => ""
              .ok { c with content := c.content.set i (.toolUse id name (.str (s ++ pj))) }
          | some _ => .error "AttributeError: input"
          | none => .error "IndexError: list index out of range"
      | .content_block_stop i =>
          match c.content[i]? with
          | some (.toolUse id name (.str s)) =>
              match jsonLoads (if s.isEmpty then "\x7b\x7d" else s) with
              | some v => .ok { c with content := c.content.set i (.toolUse id name v) }
              | none => .error "Invalid JSON input"
          | some _ => .ok c
          | none => .error "IndexError: list index out of range"
      | .message_delta sr ss ot =>
          .ok { c with stop_reason := sr, stop_sequence := ss, output_tokens := ot }

/-- Fold a whole chunk sequence with stream_merge_chunks, starting from the
empty accumulator (None), as the external Chat turn-collection loop does. -/
def fold_chunks (chunks : List StreamChunk) : Except String (Option Message) :=
  chunks.foldlM (fun acc chunk => (stream_merge_chunks acc chunk).map some) none

/-! ## Response canonicalization -/

/-- The content-block loop of AnthropicProvider._as_turn (lines 450-472):
text blocks become canonical text; a tool_use block named as the extraction
pseudo-tool, when a data model was requested, must carry a mapping with a
data key and becomes canonical Json of the data value; every other
tool_use block becomes a canonical ToolRequest; blocks of any other type
are skipped. -/
def as_turn_contents (has_data_model : Bool) :
    List ContentBlock → Except String (List Content)
  | [] => .ok []
  | .text t :: rest =>
      match as_turn_contents has_data_model rest with
      | .error e => .error e
      | .ok tail => .ok (.text t :: tail)
  | .toolUse id name input :: rest =>
      if has_data_model ∧ name = "_structured_tool_call" then
        match input with
        | .obj fields =>
            match jsonLookup fields "data" with
            | some v =>
                match as_turn_contents has_data_model rest with
                | .error e => .error e
                | .ok tail => .ok (.json v :: tail)
            | none =>
                .error "Expected data extraction tool to return a 'data' field."
        | _ => .error "Expected data extraction tool to return a dictionary."
      else
        match as_turn_contents has_data_model rest with
        | .error e => .error e
        | .ok tail => .ok (.toolRequest id name input :: tail)
  | _ :: rest => as_turn_contents has_data_model rest

/-- AnthropicProvider._as_turn (lines 449-483): canonicalize a finished
completion into an assistant Turn carrying the canonical contents and the
(input, output) token pair from the completion's usage.  (The tokens_log
side effect and the raw model_dump payload are external diagnostics and
are not modelled.) -/
def as_turn (completion : Message) (has_data_model : Bool := false) :
    Except String Turn :=
  match as_turn_contents has_data_model completion.content with
  | .error e => .error e
  | .ok contents =>
      .ok { role := "assistant", contents := contents,
            tokens := some (completion.input_tokens, completion.output_tokens) }

/-- AnthropicProvider.stream_turn (lines 374-375): finalize a fully merged
streaming accumulator, by delegation to _as_turn. -/
def stream_turn (completion : Message) (has_data_model : Bool) : Except String Turn :=
  as_turn completion has_data_model

/-- AnthropicProvider.value_turn (lines 377-378): canonicalize a
non-streaming completion, by delegation to _as_turn. -/
def value_turn (completion : Message) (has_data_model : Bool) : Except String Turn :=
  as_turn completion has_data_model

/-! ## Helper lemmas -/

/-- The model json.loads parses the empty-object literal to the empty
object. -/
theorem jsonLoads_empty_object : jsonLoads "\x7b\x7d" = some (.obj []) := rfl

/-- Every message produced by _as_message_params carries role user or
assistant. -/
theorem as_message_params_role_mem :
    ∀ (turns : List Turn) (msgs : List MessageParam),
      as_message_params turns = .ok msgs →
      ∀ m ∈ msgs, m.role = "user" ∨ m.role = "assistant" := by
  intro turns
  induction turns with
  | nil =>
      intro msgs h m hm
      simp only [as_message_params, Except.ok.injEq] at h
      subst h
      simp at hm
  | cons turn rest ih =>
      intro msgs h m hm
      simp only [as_message_params] at h
      by_cases hsys : turn.role = "system"
      · rw [if_pos hsys] at h
        exact ih msgs h m hm
      · rw [if_neg hsys] at h
        by_cases hbad : turn.role ≠ "user" ∧ turn.role ≠ "assistant"
        · rw [if_pos hbad] at h
          cases h
        · rw [if_neg hbad] at h
          cases hcb : map_content_blocks turn.contents with
          | error e => rw [hcb] at h; cases h
          | ok content =>
              rw [hcb] at h
              cases hrest : as_message_params rest with
              | error e => rw [hrest] at h; cases h
              | ok tail =>
                  rw [hrest] at h
                  injection h with h
                  subst h
                  rcases List.mem_cons.mp hm with rfl | hmem
                  · by_cases huser : turn.role = "user"
                    · left; simp [huser]
                    · right; simp [huser]
                  · exact ih tail hrest m hmem

/-- The extraction shim on a requested data model: appends the pseudo-tool
schema, disables streaming, warns exactly when streaming was requested and
forces the pseudo-tool choice. -/
theorem extraction_shim_some (stream : Bool) (ts : List ToolParam) (schema : JsonVal) :
    extraction_shim stream ts (some schema) =
      .ok (ts ++ [{ name := "_structured_tool_call",
                    description := some "Extract structured data",
                    input_schema_type := "object",
                    input_schema_properties := some (.obj [("data", schema)]) }],
           false,
           (if stream then
              ["Anthropic does not support structured data extraction in streaming mode."]
            else []),
           some { type := "tool", name := "_structured_tool_call" }) := rfl

/-! ## The claims -/

/-- C1: for every sequence of streaming chunks applied in valid arrival
order (one that stream_merge_chunks folds, from the empty accumulator,
without raising), finalizing the merged accumulator with stream_turn
yields the very Turn that value_turn produces on the equivalent single
non-streaming completion with identical content and the same
has_data_model flag. -/
theorem claim_C1_stream_fold_refines_value_turn
    (chunks : List StreamChunk) (m : Message) (has_data_model : Bool)
    (_h : fold_chunks chunks = .ok (some m)) :
    stream_turn m has_data_model = value_turn m has_data_model := rfl

/-- Witness for C1: a concrete four-event stream merges to a concrete
completion, on which the two finalization paths agree. -/
theorem claim_C1_witness :
    fold_chunks [.message_start { content := [] },
        .content_block_start 0 (.text ""), .text_delta 0 "4",
        .content_block_stop 0, .message_delta (some "end_turn") none 2] =
      .ok (some { content := [.text "4"], stop_reason := some "end_turn",
                  stop_sequence := none, input_tokens := 0, output_tokens := 2 }) ∧
    stream_turn { content := [.text "4"], stop_reason := some "end_turn",
                  stop_sequence := none, input_tokens := 0, output_tokens := 2 } false =
      value_turn { content := [.text "4"], stop_reason := some "end_turn",
                   stop_sequence := none, input_tokens := 0, output_tokens := 2 } false :=
  ⟨rfl,
   claim_C1_stream_fold_refines_value_turn
     [.message_start { content := [] },
      .content_block_start 0 (.text ""), .text_delta 0 "4",
      .content_block_stop 0, .message_delta (some "end_turn") none 2]
     { content := [.text "4"], stop_reason := some "end_turn",
       stop_sequence := none, input_tokens := 0, output_tokens := 2 } false rfl⟩

/-- C10: mapping a ToolResult content item to a vendor block yields a
tool_result block whose tool_use_id equals the item's identifier and whose
is_error field is true exactly when the item's error is set. -/
theorem claim_C10_tool_result_block (id : String) (value : JsonVal)
    (error : Option String) :
    as_content_block (.toolResult id value error) =
      .ok (.toolResult id (get_final_value value error) error.isSome) ∧
    (error.isSome = true ↔ error ≠ none) :=
  ⟨rfl, Option.isSome_iff_ne_none⟩

/-- C8: on a content_block_stop chunk whose index holds a tool_use block
whose accumulated input is still a string, stream_merge_chunks parses that
string as JSON (the empty string standing for the empty object) and raises
exactly when the non-empty string is not valid JSON; any other content
item at that index is left unchanged. -/
theorem claim_C8_content_block_stop (c : Message) (i : Nat) (b : ContentBlock)
    (hb : c.content[i]? = some b) :
    (∀ id name s, b = .toolUse id name (.str s) →
       stream_merge_chunks (some c) (.content_block_stop i) =
         (match jsonLoads (if s.isEmpty then "\x7b\x7d" else s) with
          | some v => .ok { c with content := c.content.set i (.toolUse id name v) }
          | none => .error "Invalid JSON input") ∧
       (s.isEmpty →
          stream_merge_chunks (some c) (.content_block_stop i) =
            .ok { c with content := c.content.set i (.toolUse id name (.obj [])) }) ∧
       ((∃ e, stream_merge_chunks (some c) (.content_block_stop i) = .error e) ↔
          ¬s.isEmpty ∧ jsonLoads s = none)) ∧
    ((∀ id name s, b ≠ .toolUse id name (.str s)) →
       stream_merge_chunks (some c) (.content_block_stop i) = .ok c) := by
  constructor
  · rintro id name s rfl
    have heq : stream_merge_chunks (some c) (.content_block_stop i) =
        (match jsonLoads (if s.isEmpty then "\x7b\x7d" else s) with
         | some v => .ok { c with content := c.content.set i (.toolUse id name v) }
         | none => .error "Invalid JSON input") := by
      simp only [stream_merge_chunks, hb]
    refine ⟨heq, ?_, ?_⟩
    · intro hs
      rw [heq, if_pos hs, jsonLoads_empty_object]
    · rw [heq]
      by_cases hs : s.isEmpty
      · rw [if_pos hs, jsonLoads_empty_object]
        simp [hs]
      · rw [if_neg hs]
        cases hj : jsonLoads s with
        | none => simp [hs, hj]
        | some v => simp [hs, hj]
  · intro hnot
    cases b with
    | text t => simp only [stream_merge_chunks, hb]
    | image mt d => simp only [stream_merge_chunks, hb]
    | toolResult tid ct ie => simp only [stream_merge_chunks, hb]
    | toolUse id name input =>
        cases input with
        | str s => exact absurd rfl (hnot id name s)
        | null => simp only [stream_merge_chunks, hb]
        | bool x => simp only [stream_merge_chunks, hb]
        | num n => simp only [stream_merge_chunks, hb]
        | arr xs => simp only [stream_merge_chunks, hb]
        | obj fs => simp only [stream_merge_chunks, hb]

/-- Witness for C8: a tool-use block whose accumulated input is the empty
string is parsed into the empty object. -/
theorem claim_C8_witness :
    stream_merge_chunks (some { content := [.toolUse "t1" "f" (.str "")] })
        (.content_block_stop 0) =
      .ok { content := [.toolUse "t1" "f" (.obj [])] } :=
  ((claim_C8_content_block_stop { content := [.toolUse "t1" "f" (.str "")] } 0
      (.toolUse "t1" "f" (.str "")) rfl).1 "t1" "f" "" rfl).2.1 rfl

/-- C3: canonicalizing with has_data_model set, a tool_use block named as
the extraction pseudo-tool whose input is a mapping with key data is
emitted as canonical Json holding exactly the value under data; if the
input is not a mapping, or lacks the key, canonicalization raises. -/
theorem claim_C3_extraction_unwrap (c : Message) (id : String)
    (input : JsonVal) (rest : List ContentBlock)
    (hc : c.content = .toolUse id "_structured_tool_call" input :: rest) :
    (∀ fields v, input = .obj fields → jsonLookup fields "data" = some v →
       as_turn c true =
         (as_turn_contents true rest).map (fun tail =>
           { role := "assistant", contents := .json v :: tail,
             tokens := some (c.input_tokens, c.output_tokens) })) ∧
    ((∀ fields, input ≠ .obj fields) →
       as_turn c true = .error "Expected data extraction tool to return a dictionary.") ∧
    (∀ fields, input = .obj fields → jsonLookup fields "data" = none →
       as_turn c true = .error "Expected data extraction tool to return a 'data' field.") := by
  refine ⟨?_, ?_, ?_⟩
  · rintro fields v rfl hlook
    cases htail : as_turn_contents true rest with
    | error e =>
        simp [as_turn, hc, as_turn_contents, hlook, htail, Except.map]
    | ok tail =>
        simp [as_turn, hc, as_turn_contents, hlook, htail, Except.map]
  · intro hno
    cases input with
    | obj fields => exact absurd rfl (hno fields)
    | null => simp [as_turn, hc, as_turn_contents]
    | bool x => simp [as_turn, hc, as_turn_contents]
    | num n => simp [as_turn, hc, as_turn_contents]
    | str s => simp [as_turn, hc, as_turn_contents]
    | arr xs => simp [as_turn, hc, as_turn_contents]
  · rintro fields rfl hlook
    simp [as_turn, hc, as_turn_contents, hlook]

/-- Witness for C3: the spec's example — the pseudo-tool called with
input carrying data x=1 canonicalizes to Json of x=1, and the same block
with an empty-object input raises. -/
theorem claim_C3_witness :
    as_turn { content := [.toolUse "i" "_structured_tool_call"
        (.obj [("data", .obj [("x", .num 1)])])] } true =
      .ok { role := "assistant", contents := [.json (.obj [("x", .num 1)])],
            tokens := some (0, 0) } ∧
    as_turn { content := [.toolUse "i" "_structured_tool_call" (.obj [])] } true =
      .error "Expected data extraction tool to return a 'data' field." :=
  ⟨((claim_C3_extraction_unwrap
      { content := [.toolUse "i" "_structured_tool_call"
          (.obj [("data", .obj [("x", .num 1)])])] } "i"
      (.obj [("data", .obj [("x", .num 1)])]) [] rfl).1
      [("data", .obj [("x", .num 1)])] (.obj [("x", .num 1)]) rfl rfl).trans rfl,
   (claim_C3_extraction_unwrap
      { content := [.toolUse "i" "_structured_tool_call" (.obj [])] } "i"
      (.obj []) [] rfl).2.2 [] rfl rfl⟩

/-- True for the vendor block types from which canonicalization emits
content: text and tool_use. -/
def emitted_block : ContentBlock → Bool
  | .text _ => true
  | .toolUse _ _ _ => true
  | _ => false

/-- The canonicalization loop ignores every block that is neither text nor
tool_use: filtering them away changes nothing. -/
theorem as_turn_contents_filter (has_data_model : Bool) (l : List ContentBlock) :
    as_turn_contents has_data_model (l.filter emitted_block) =
      as_turn_contents has_data_model l := by
  induction l with
  | nil => rfl
  | cons b rest ih =>
      cases b with
      | text t =>
          simp only [List.filter, emitted_block, as_turn_contents, ih]
      | toolUse id name input =>
          simp only [List.filter, emitted_block]
          simp only [as_turn_contents, ih]
      | image mt d =>
          simp only [List.filter, emitted_block, as_turn_contents, ih]
      | toolResult tid ct ie =>
          simp only [List.filter, emitted_block, as_turn_contents, ih]

/-- C9: canonicalization emits content only for text and tool_use blocks —
every block of any other type is silently skipped, with no Content item
and no error — and the resulting Turn always has role assistant. -/
theorem claim_C9_skips_other_blocks (c : Message) (has_data_model : Bool) :
    as_turn { c with content := c.content.filter emitted_block } has_data_model =
      as_turn c has_data_model ∧
    ∀ t, as_turn c has_data_model = .ok t → t.role = "assistant" := by
  constructor
  · simp only [as_turn, as_turn_contents_filter]
  · intro t h
    simp only [as_turn] at h
    cases hct : as_turn_contents has_data_model c.content with
    | error e => rw [hct] at h; cases h
    | ok cs =>
        rw [hct] at h
        injection h with h
        subst h
        rfl

/-- Witness for C9: dropping the image and tool_result blocks of a
concrete completion leaves canonicalization unchanged, and the canonical
Turn has role assistant. -/
theorem claim_C9_witness :
    as_turn { content := [ContentBlock.text "a"] } false =
      as_turn { content := [ContentBlock.text "a",
                            .image "image/png" "zzz",
                            .toolResult "i" (.str "v") false] } false ∧
    Turn.role { role := "assistant", contents := [Content.text "a"],
                tokens := some (0, 0) } = "assistant" :=
  ⟨(claim_C9_skips_other_blocks
      { content := [ContentBlock.text "a", .image "image/png" "zzz",
                    .toolResult "i" (.str "v") false] } false).1,
   (claim_C9_skips_other_blocks
      { content := [ContentBlock.text "a", .image "image/png" "zzz",
                    .toolResult "i" (.str "v") false] } false).2
     { role := "assistant", contents := [Content.text "a"], tokens := some (0, 0) } rfl⟩

/-- Counterexample for C7: a non-leading system-role turn does not raise —
it is silently skipped (the source skips every system turn before the role
check), so mapping a user turn followed by a system turn succeeds. -/
theorem claim_C7_counterexample :
    as_message_params [{ role := "user", contents := [] },
                       { role := "system", contents := [.text "late"] }] =
      .ok [{ role := "user", content := [] }] := rfl

/-- C7 (amended): mapping turns to vendor messages passes the role through
unchanged for user and assistant turns, silently skips every system-role
turn (leading or not), and raises a fatal error for every other role. -/
theorem claim_C7_role_handling (turn : Turn) (rest : List Turn) :
    (turn.role = "system" →
       as_message_params (turn :: rest) = as_message_params rest) ∧
    ((turn.role = "user" ∨ turn.role = "assistant") →
       ∀ content msgs, map_content_blocks turn.contents = .ok content →
         as_message_params rest = .ok msgs →
         as_message_params (turn :: rest) =
           .ok ({ role := turn.role, content := content } :: msgs)) ∧
    (turn.role ≠ "system" → turn.role ≠ "user" → turn.role ≠ "assistant" →
       as_message_params (turn :: rest) = .error ("Unknown role " ++ turn.role)) := by
  refine ⟨?_, ?_, ?_⟩
  · intro hsys
    simp [as_message_params, hsys]
  · rintro (hrole | hrole) content msgs hcontent hmsgs
    · rw [show as_message_params (turn :: rest) =
            (if turn.role = "system" then as_message_params rest
             else if turn.role ≠ "user" ∧ turn.role ≠ "assistant" then
               .error ("Unknown role " ++ turn.role)
             else
               match map_content_blocks turn.contents with
               | .error e => .error e
               | .ok content =>
                   match as_message_params rest with
                   | .error e => .error e
                   | .ok tail =>
                       .ok ({ role := if turn.role = "user" then "user" else "assistant",
                              content := content } :: tail)) from rfl]
      simp [hrole, hcontent, hmsgs]
    · rw [show as_message_params (turn :: rest) =
            (if turn.role = "system" then as_message_params rest
             else if turn.role ≠ "user" ∧ turn.role ≠ "assistant" then
               .error ("Unknown role " ++ turn.role)
             else
               match map_content_blocks turn.contents with
               | .error e => .error e
               | .ok content =>
                   match as_message_params rest with
                   | .error e => .error e
                   | .ok tail =>
                       .ok ({ role := if turn.role = "user" then "user" else "assistant",
                              content := content } :: tail)) from rfl]
      simp [hrole, hcontent, hmsgs]
  · intro h1 h2 h3
    simp [as_message_params, h1, h2, h3]

/-- Witness for C7 (amended): an assistant turn passes its role through,
and a tool-role turn raises the unknown-role error. -/
theorem claim_C7_witness :
    as_message_params [{ role := "assistant", contents := [] }] =
      .ok [{ role := "assistant", content := [] }] ∧
    as_message_params [{ role := "tool", contents := [] }] =
      .error "Unknown role tool" :=
  ⟨(claim_C7_role_handling { role := "assistant", contents := [] } []).2.1
     (Or.inr rfl) [] [] rfl rfl,
   (claim_C7_role_handling { role := "tool", contents := [] } []).2.2
     (by decide) (by decide) (by decide)⟩

/-- Counterexample for C2: a ToolResult item maps to a tool_result vendor
block carrying its identifier, but canonicalization drops that block, so
the round trip yields an empty content list — the ToolResult identifier is
not preserved through the round trip. -/
theorem claim_C2_counterexample :
    map_content_blocks [Content.toolResult "id1" (.str "v") none] =
      .ok [ContentBlock.toolResult "id1" (.str "v") false] ∧
    as_turn { content := [ContentBlock.toolResult "id1" (.str "v") false] } false =
      .ok { role := "assistant", contents := [], tokens := some (0, 0) } :=
  ⟨rfl, rfl⟩

/-- What survives the vendor round trip (map to a block, canonicalize
back, with no data model): text and structured-data placeholders survive
as text, tool requests survive whole, images and tool results are
dropped. -/
def round_trip_image : Content → Option Content
  | .text t => some (.text t)
  | .json _ => some (.text "<structured data/>")
  | .imageInline _ _ => none
  | .imageRemote _ => none
  | .toolRequest id name args => some (.toolRequest id name args)
  | .toolResult _ _ _ => none

/-- Mapping a remote-image-free content list to vendor blocks succeeds and
canonicalizing those blocks back yields exactly the round-trip image of
the list. -/
theorem round_trip_blocks (l : List Content)
    (h : ∀ c ∈ l, ∀ u, c ≠ .imageRemote u) :
    ∃ bs, map_content_blocks l = .ok bs ∧
      as_turn_contents false bs = .ok (l.filterMap round_trip_image) := by
  induction l with
  | nil => exact ⟨[], rfl, rfl⟩
  | cons c rest ih =>
      obtain ⟨bs, hbs, hcanon⟩ := ih (fun c hc u => h c (List.mem_cons_of_mem _ hc) u)
      cases c with
      | text t =>
          refine ⟨.text t :: bs, ?_, ?_⟩
          · simp [map_content_blocks, as_content_block, hbs]
          · simp [as_turn_contents, hcanon, round_trip_image]
      | json v =>
          refine ⟨.text "<structured data/>" :: bs, ?_, ?_⟩
          · simp [map_content_blocks, as_content_block, hbs]
          · simp [as_turn_contents, hcanon, round_trip_image]
      | imageInline ct d =>
          refine ⟨.image ct (d.getD "") :: bs, ?_, ?_⟩
          · simp [map_content_blocks, as_content_block, hbs]
          · simp [as_turn_contents, hcanon, round_trip_image]
      | imageRemote u =>
          exact absurd rfl (h _ (List.mem_cons_self _ _) u)
      | toolRequest id name args =>
          refine ⟨.toolUse id name args :: bs, ?_, ?_⟩
          · simp [map_content_blocks, as_content_block, hbs]
          · simp [as_turn_contents, hcanon, round_trip_image]
      | toolResult id v err =>
          refine ⟨.toolResult id (get_final_value v err) err.isSome :: bs, ?_, ?_⟩
          · simp [map_content_blocks, as_content_block, hbs]
          · simp [as_turn_contents, hcanon, round_trip_image]

/-- C2 (amended): for every content list of Text, Json, ImageInline,
ToolRequest and ToolResult items, mapping to vendor blocks and
canonicalizing back succeeds and is identity-preserving on text for Text
items and on identifiers (with name and arguments) for ToolRequest items;
ToolResult items are dropped by canonicalization (their identifiers
survive only the forward mapping), and image and Json items lose their
payloads as the table prescribes. -/
theorem claim_C2_round_trip (l : List Content)
    (h : ∀ c ∈ l, ∀ u, c ≠ .imageRemote u) :
    ∃ bs t, map_content_blocks l = .ok bs ∧
      as_turn { content := bs } false = .ok t ∧
      t.role = "assistant" ∧
      t.contents = l.filterMap round_trip_image := by
  obtain ⟨bs, hbs, hcanon⟩ := round_trip_blocks l h
  exact ⟨bs, { role := "assistant", contents := l.filterMap round_trip_image,
               tokens := some (0, 0) },
         hbs, by simp [as_turn, hcanon], rfl, rfl⟩

/-- Witness for C2 (amended): a concrete list with a Text, a ToolRequest
and a ToolResult round-trips to the Text and the ToolRequest, identifiers
and text intact, the ToolResult dropped. -/
theorem claim_C2_witness :
    ∃ bs t,
      map_content_blocks [Content.text "hi",
          Content.toolRequest "id7" "f" (.obj []),
          Content.toolResult "id1" (.str "v") none] = .ok bs ∧
      as_turn { content := bs } false = .ok t ∧
      t.role = "assistant" ∧
      t.contents = [Content.text "hi", Content.toolRequest "id7" "f" (.obj [])] :=
  claim_C2_round_trip
    [Content.text "hi", Content.toolRequest "id7" "f" (.obj []),
     Content.toolResult "id1" (.str "v") none]
    (by intro c hc u heq; subst heq; simp at hc)

/-- Shape of a successful request assembly without a data model. -/
theorem chat_perform_args_ok_none (model : String) (max_tokens : Nat)
    (stream : Bool) (turns : List Turn) (tools : List ToolSchemaFunction)
    (kwargs : SubmitKwargs) (base : List ToolParam) (messages : List MessageParam)
    (hts : map_tool_schemas tools = .ok base)
    (hmsg : as_message_params turns = .ok messages) :
    chat_perform_args model max_tokens stream turns tools none kwargs =
      .ok ({ stream := kwargs.stream.getD stream,
             messages := kwargs.messages.getD messages,
             model := kwargs.model.getD model,
             max_tokens := kwargs.max_tokens.getD max_tokens,
             tools := kwargs.tools.getD base,
             tool_choice := kwargs.tool_choice,
             system :=
               match kwargs.system with
               | some s => some s
               | none =>
                   match turns with
                   | t0 :: _ => if t0.role = "system" then some t0.text else none
                   | [] => none }, []) := by
  cases turns with
  | nil => simp [chat_perform_args, hts, extraction_shim, hmsg]
  | cons t0 rest => simp [chat_perform_args, hts, extraction_shim, hmsg]

/-- Shape of a successful request assembly with a data model: the
pseudo-tool schema is appended, streaming is off unless the caller's
kwargs force it back on, the warning fires exactly when streaming was
requested, and the tool choice is forced. -/
theorem chat_perform_args_ok_some (model : String) (max_tokens : Nat)
    (stream : Bool) (turns : List Turn) (tools : List ToolSchemaFunction)
    (schema : JsonVal) (kwargs : SubmitKwargs) (base : List ToolParam)
    (messages : List MessageParam)
    (hts : map_tool_schemas tools = .ok base)
    (hmsg : as_message_params turns = .ok messages) :
    chat_perform_args model max_tokens stream turns tools (some schema) kwargs =
      .ok ({ stream := kwargs.stream.getD false,
             messages := kwargs.messages.getD messages,
             model := kwargs.model.getD model,
             max_tokens := kwargs.max_tokens.getD max_tokens,
             tools := kwargs.tools.getD
               (base ++ [{ name := "_structured_tool_call",
                           description := some "Extract structured data",
                           input_schema_type := "object",
                           input_schema_properties := some (.obj [("data", schema)]) }]),
             tool_choice := some { type := "tool", name := "_structured_tool_call" },
             system :=
               match kwargs.system with
               | some s => some s
               | none =>
                   match turns with
                   | t0 :: _ => if t0.role = "system" then some t0.text else none
                   | [] => none },
           if stream then
             ["Anthropic does not support structured data extraction in streaming mode."]
           else []) := by
  cases turns with
  | nil => simp [chat_perform_args, hts, extraction_shim_some, hmsg]
  | cons t0 rest => simp [chat_perform_args, hts, extraction_shim_some, hmsg]

/-- Counterexample for C4: with a data model requested and stream=true,
a caller whose raw overrides also set stream=true gets a request whose
stream flag is true — the non-streaming path is negotiable per-call
through the overrides, contradicting the claim as stated (the single
warning and the forced pseudo-tool choice do survive the override). -/
theorem claim_C4_counterexample :
    ∃ args warns,
      chat_perform_args "m" 4096 true [] [] (some (.obj []))
          { stream := some true } = .ok (args, warns) ∧
      args.stream = true ∧ warns.length = 1 ∧
      args.tool_choice = some { type := "tool", name := "_structured_tool_call" } :=
  ⟨_, _, rfl, rfl, rfl, rfl⟩

/-- C4 (amended): for every request built with a data model and
stream=true, exactly one warning is emitted and tool_choice always forces
exactly the extraction pseudo-tool — for every caller override; the
assembled request's stream flag is false whenever the caller overrides do
not themselves set stream. -/
theorem claim_C4_forced_nonstreaming (model : String) (max_tokens : Nat)
    (turns : List Turn) (tools : List ToolSchemaFunction) (schema : JsonVal)
    (kwargs : SubmitKwargs)
    (args : SubmitInputArgs) (warns : List String)
    (h : chat_perform_args model max_tokens true turns tools (some schema) kwargs =
      .ok (args, warns)) :
    warns.length = 1 ∧
    args.tool_choice = some { type := "tool", name := "_structured_tool_call" } ∧
    (kwargs.stream = none → args.stream = false) := by
  cases hts : map_tool_schemas tools with
  | error e =>
      rw [show chat_perform_args model max_tokens true turns tools (some schema) kwargs =
            .error e by simp [chat_perform_args, hts]] at h
      cases h
  | ok base =>
      cases hmsg : as_message_params turns with
      | error e =>
          rw [show chat_perform_args model max_tokens true turns tools (some schema) kwargs =
                .error e by simp [chat_perform_args, hts, extraction_shim_some, hmsg]] at h
          cases h
      | ok messages =>
          rw [chat_perform_args_ok_some model max_tokens true turns tools schema kwargs
                base messages hts hmsg] at h
          injection h with h
          have ha := congrArg Prod.fst h
          have hw := congrArg Prod.snd h
          simp only at ha hw
          subst ha
          subst hw
          exact ⟨rfl, rfl, fun hks => by simp [hks]⟩

/-- Witness for C4 (amended): a concrete extraction request with
stream=true and no overrides assembles non-streaming with one warning and
the forced pseudo-tool choice. -/
theorem claim_C4_witness :
    ∃ args warns,
      chat_perform_args "m" 1 true [] [] (some (.obj [])) {} = .ok (args, warns) ∧
      warns.length = 1 ∧
      args.tool_choice = some { type := "tool", name := "_structured_tool_call" } ∧
      args.stream = false := by
  have h := claim_C4_forced_nonstreaming "m" 1 [] [] (.obj []) {} _ _ rfl
  exact ⟨_, _, rfl, h.1, h.2.1, h.2.2 rfl⟩

/-- C5: a leading system-role turn contributes no vendor message (every
message carries role user or assistant, and mapping the turn list equals
mapping its tail), and the assembled request's system field equals that
turn's text when the caller supplied no explicit system override, while an
explicit caller override wins. -/
theorem claim_C5_system_prompt (model : String) (max_tokens : Nat)
    (stream : Bool) (t0 : Turn) (rest : List Turn)
    (tools : List ToolSchemaFunction) (data_model : Option JsonVal)
    (kwargs : SubmitKwargs) (hrole : t0.role = "system") :
    as_message_params (t0 :: rest) = as_message_params rest ∧
    (∀ msgs, as_message_params (t0 :: rest) = .ok msgs →
       ∀ m ∈ msgs, m.role = "user" ∨ m.role = "assistant") ∧
    (∀ args warns,
       chat_perform_args model max_tokens stream (t0 :: rest) tools data_model kwargs =
         .ok (args, warns) →
       (kwargs.system = none → args.system = some t0.text) ∧
       (∀ s, kwargs.system = some s → args.system = some s) ∧
       (kwargs.messages = none →
          ∀ msgs, as_message_params rest = .ok msgs → args.messages = msgs)) := by
  have hskip : as_message_params (t0 :: rest) = as_message_params rest := by
    simp [as_message_params, hrole]
  refine ⟨hskip, fun msgs h => as_message_params_role_mem _ msgs h, ?_⟩
  intro args warns h
  cases hts : map_tool_schemas tools with
  | error e =>
      rw [show chat_perform_args model max_tokens stream (t0 :: rest) tools data_model kwargs =
            .error e by
          cases data_model <;> simp [chat_perform_args, hts]] at h
      cases h
  | ok base =>
      cases hmsg : as_message_params (t0 :: rest) with
      | error e =>
          rw [show chat_perform_args model max_tokens stream (t0 :: rest) tools data_model kwargs =
                .error e by
              cases data_model with
              | none => simp [chat_perform_args, hts, extraction_shim, hmsg]
              | some schema => simp [chat_perform_args, hts, extraction_shim_some, hmsg]] at h
          cases h
      | ok messages =>
          have hfields :
              args.system =
                (match kwargs.system with
                 | some s => some s
                 | none => if t0.role = "system" then some t0.text else none) ∧
              args.messages = kwargs.messages.getD messages := by
            cases data_model with
            | none =>
                rw [chat_perform_args_ok_none model max_tokens stream (t0 :: rest) tools
                      kwargs base messages hts hmsg] at h
                injection h with h
                have ha := congrArg Prod.fst h
                simp only at ha
                subst ha
                exact ⟨rfl, rfl⟩
            | some schema =>
                rw [chat_perform_args_ok_some model max_tokens stream (t0 :: rest) tools
                      schema kwargs base messages hts hmsg] at h
                injection h with h
                have ha := congrArg Prod.fst h
                simp only at ha
                subst ha
                exact ⟨rfl, rfl⟩
          refine ⟨?_, ?_, ?_⟩
          · intro hknone
            rw [hfields.1, hknone, if_pos hrole]
          · intro s hks
            rw [hfields.1, hks]
          · intro hkm msgs hrest
            rw [hfields.2, hkm]
            rw [hskip, hrest] at hmsg
            injection hmsg with hmsg
            exact hmsg.symm

/-- Witness for C5: the spec's example — a leading system turn saying
be terse lands in the request's system field, and the message list holds
only the user turn. -/
theorem claim_C5_witness :
    ∃ args warns,
      chat_perform_args "m" 1 false
          [{ role := "system", contents := [.text "be terse"] },
           { role := "user", contents := [.text "hi"] }] [] none {} =
        .ok (args, warns) ∧
      args.system = some "be terse" ∧
      args.messages = [{ role := "user", content := [.text "hi"] }] := by
  refine ⟨_, _, rfl, ?_, ?_⟩
  · have h := (claim_C5_system_prompt "m" 1 false
        { role := "system", contents := [.text "be terse"] }
        [{ role := "user", contents := [.text "hi"] }] [] none {} rfl).2.2 _ _ rfl
    exact (h.1 rfl).trans (by decide)
  · have h := (claim_C5_system_prompt "m" 1 false
        { role := "system", contents := [.text "be terse"] }
        [{ role := "user", contents := [.text "hi"] }] [] none {} rfl).2.2 _ _ rfl
    exact h.2.2 rfl _ rfl

/-- C6: caller-supplied raw override entries take precedence over every
derived request field — stream flag, messages, model id, max-token budget,
tool list, system prompt — except the forced tool choice: with a data
model requested, tool_choice is always the extraction pseudo-tool even if
the overrides specify one, and without a data model the override's
tool_choice stands. -/
theorem claim_C6_overrides_precedence (model : String) (max_tokens : Nat)
    (stream : Bool) (turns : List Turn) (tools : List ToolSchemaFunction)
    (data_model : Option JsonVal) (kwargs : SubmitKwargs)
    (args : SubmitInputArgs) (warns : List String)
    (h : chat_perform_args model max_tokens stream turns tools data_model kwargs =
      .ok (args, warns)) :
    (∀ v, kwargs.stream = some v → args.stream = v) ∧
    (∀ v, kwargs.messages = some v → args.messages = v) ∧
    (∀ v, kwargs.model = some v → args.model = v) ∧
    (∀ v, kwargs.max_tokens = some v → args.max_tokens = v) ∧
    (∀ v, kwargs.tools = some v → args.tools = v) ∧
    (∀ v, kwargs.system = some v → args.system = some v) ∧
    (∀ schema, data_model = some schema →
       args.tool_choice = some { type := "tool", name := "_structured_tool_call" }) ∧
    (data_model = none → args.tool_choice = kwargs.tool_choice) := by
  cases hts : map_tool_schemas tools with
  | error e =>
      rw [show chat_perform_args model max_tokens stream turns tools data_model kwargs =
            .error e by cases data_model <;> simp [chat_perform_args, hts]] at h
      cases h
  | ok base =>
      cases hmsg : as_message_params turns with
      | error e =>
          rw [show chat_perform_args model max_tokens stream turns tools data_model kwargs =
                .error e by
              cases data_model with
              | none => simp [chat_perform_args, hts, extraction_shim, hmsg]
              | some schema => simp [chat_perform_args, hts, extraction_shim_some, hmsg]] at h
          cases h
      | ok messages =>
          cases data_model with
          | none =>
              rw [chat_perform_args_ok_none model max_tokens stream turns tools
                    kwargs base messages hts hmsg] at h
              injection h with h
              have ha := congrArg Prod.fst h
              simp only at ha
              subst ha
              refine ⟨?_, ?_, ?_, ?_, ?_, ?_, ?_, ?_⟩
              · intro v hv; simp [hv]
              · intro v hv; simp [hv]
              · intro v hv; simp [hv]
              · intro v hv; simp [hv]
              · intro v hv; simp [hv]
              · intro v hv; simp [hv]
              · intro schema habs; cases habs
              · intro _; rfl
          | some schema =>
              rw [chat_perform_args_ok_some model max_tokens stream turns tools
                    schema kwargs base messages hts hmsg] at h
              injection h with h
              have ha := congrArg Prod.fst h
              simp only at ha
              subst ha
              refine ⟨?_, ?_, ?_, ?_, ?_, ?_, ?_, ?_⟩
              · intro v hv; simp [hv]
              · intro v hv; simp [hv]
              · intro v hv; simp [hv]
              · intro v hv; simp [hv]
              · intro v hv; simp [hv]
              · intro v hv; simp [hv]
              · intro _ _; rfl
              · intro habs; cases habs

/-- Witness for C6: a concrete call with every override set and a data
model requested — every override lands in the request verbatim, except
tool_choice, which is forced to the extraction pseudo-tool. -/
theorem claim_C6_witness :
    ∃ args warns,
      chat_perform_args "m" 1 false [] [] (some (.obj []))
          { stream := some true, messages := some [], model := some "mm",
            max_tokens := some 7, tools := some [],
            tool_choice := some { type := "any", name := "x" },
            system := some "sys" } = .ok (args, warns) ∧
      args.stream = true ∧ args.model = "mm" ∧ args.max_tokens = 7 ∧
      args.system = some "sys" ∧
      args.tool_choice = some { type := "tool", name := "_structured_tool_call" } := by
  have h := claim_C6_overrides_precedence "m" 1 false [] [] (some (.obj []))
      { stream := some true, messages := some [], model := some "mm",
        max_tokens := some 7, tools := some [],
        tool_choice := some { type := "any", name := "x" },
        system := some "sys" } _ _ rfl
  exact ⟨_, _, rfl, h.1 true rfl, h.2.2.1 "mm" rfl, h.2.2.2.1 7 rfl,
         h.2.2.2.2.2.1 "sys" rfl, h.2.2.2.2.2.2.1 (.obj []) rfl⟩

end Chatlas
